import Mathlib

/-!
Verification of the plane-sweep depth-map engine (`src/planesweep.cpp`).

Scalars are modelled as rationals (exact arithmetic).  The 3x3 matrix and
3-vector helpers (`Matrix3D`, `Vector3D` from `helper_structs.h`, which is not
part of the provided sources) are modelled as explicit component structures
with the standard componentwise operations; the CUDA kernels declared in
`kernels.cu.h` (also not provided) are modelled from the specification where a
claim depends on them, each such definition carrying a doc comment saying so.
-/

namespace PS

/-- A 3x3 matrix of rationals with explicit components, modelling the
`Matrix3D` helper struct used by `PlaneSweep::RelativeMatrices`. -/
@[ext] structure Matrix3D where
  m00 : ℚ
  m01 : ℚ
  m02 : ℚ
  m10 : ℚ
  m11 : ℚ
  m12 : ℚ
  m20 : ℚ
  m21 : ℚ
  m22 : ℚ
deriving DecidableEq

/-- A 3-vector of rationals, modelling the `Vector3D` helper struct. -/
@[ext] structure Vector3D where
  x : ℚ
  y : ℚ
  z : ℚ
deriving DecidableEq

namespace Matrix3D

/-- Matrix product. -/
def mul (A B : Matrix3D) : Matrix3D where
  m00 := A.m00 * B.m00 + A.m01 * B.m10 + A.m02 * B.m20
  m01 := A.m00 * B.m01 + A.m01 * B.m11 + A.m02 * B.m21
  m02 := A.m00 * B.m02 + A.m01 * B.m12 + A.m02 * B.m22
  m10 := A.m10 * B.m00 + A.m11 * B.m10 + A.m12 * B.m20
  m11 := A.m10 * B.m01 + A.m11 * B.m11 + A.m12 * B.m21
  m12 := A.m10 * B.m02 + A.m11 * B.m12 + A.m12 * B.m22
  m20 := A.m20 * B.m00 + A.m21 * B.m10 + A.m22 * B.m20
  m21 := A.m20 * B.m01 + A.m21 * B.m11 + A.m22 * B.m21
  m22 := A.m20 * B.m02 + A.m21 * B.m12 + A.m22 * B.m22

/-- Matrix transpose (`Matrix3D::trans`). -/
def trans (A : Matrix3D) : Matrix3D where
  m00 := A.m00
  m01 := A.m10
  m02 := A.m20
  m10 := A.m01
  m11 := A.m11
  m12 := A.m21
  m20 := A.m02
  m21 := A.m12
  m22 := A.m22

/-- Scale every entry by `c`. -/
def scale (c : ℚ) (A : Matrix3D) : Matrix3D where
  m00 := c * A.m00
  m01 := c * A.m01
  m02 := c * A.m02
  m10 := c * A.m10
  m11 := c * A.m11
  m12 := c * A.m12
  m20 := c * A.m20
  m21 := c * A.m21
  m22 := c * A.m22

/-- The identity matrix (`Matrix3D::makeIdentity`). -/
def idM : Matrix3D := ⟨1, 0, 0, 0, 1, 0, 0, 0, 1⟩

/-- Determinant by cofactor expansion along the first row. -/
def det (A : Matrix3D) : ℚ :=
  A.m00 * (A.m11 * A.m22 - A.m12 * A.m21)
    - A.m01 * (A.m10 * A.m22 - A.m12 * A.m20)
    + A.m02 * (A.m10 * A.m21 - A.m11 * A.m20)

/-- The adjugate (transposed cofactor matrix). -/
def adj (A : Matrix3D) : Matrix3D where
  m00 := A.m11 * A.m22 - A.m12 * A.m21
  m01 := -(A.m01 * A.m22 - A.m02 * A.m21)
  m02 := A.m01 * A.m12 - A.m02 * A.m11
  m10 := -(A.m10 * A.m22 - A.m12 * A.m20)
  m11 := A.m00 * A.m22 - A.m02 * A.m20
  m12 := -(A.m00 * A.m12 - A.m02 * A.m10)
  m20 := A.m10 * A.m21 - A.m11 * A.m20
  m21 := -(A.m00 * A.m21 - A.m01 * A.m20)
  m22 := A.m00 * A.m11 - A.m01 * A.m10

/-- Matrix inverse (`Matrix3D::inv`), the standard adjugate-over-determinant
formula for a 3x3 matrix. -/
def inv (A : Matrix3D) : Matrix3D := (A.adj).scale (1 / A.det)

/-- Matrix-vector product. -/
def mulVec (A : Matrix3D) (v : Vector3D) : Vector3D where
  x := A.m00 * v.x + A.m01 * v.y + A.m02 * v.z
  y := A.m10 * v.x + A.m11 * v.y + A.m12 * v.z
  z := A.m20 * v.x + A.m21 * v.y + A.m22 * v.z

end Matrix3D

namespace Vector3D

/-- Vector subtraction. -/
def sub (u v : Vector3D) : Vector3D := ⟨u.x - v.x, u.y - v.y, u.z - v.z⟩

/-- Vector negation. -/
def neg (v : Vector3D) : Vector3D := ⟨-v.x, -v.y, -v.z⟩

end Vector3D

/-- `PlaneSweep::RelativeMatrices` (planesweep.cpp:538): the relative pose of a
source view with respect to the reference view.  With `alternativemethod`
false it returns `Rrel = Rsrc * Rref.inv()` and `trel = tsrc - Rrel * tref`;
with `alternativemethod` true it returns `Rrel = Rsrc.trans() * Rref` and
`trel = Rsrc.trans() * (tref - tsrc)`. -/
def RelativeMatrices (alternativemethod : Bool) (Rref : Matrix3D) (tref : Vector3D)
    (Rsrc : Matrix3D) (tsrc : Vector3D) : Matrix3D × Vector3D :=
  if !alternativemethod then
    (Rsrc.mul Rref.inv, tsrc.sub ((Rsrc.mul Rref.inv).mulVec tref))
  else
    (Rsrc.trans.mul Rref, Rsrc.trans.mulVec (tref.sub tsrc))

/-- Per-view winner-take-all result at one pixel: the depth winning the
per-view arg-max over depth hypotheses and the best NCC score achieved there
(the contents of `devDepth` and `devbestNCC` after the depth loop of
`PlaneSweepThread`, planesweep.cpp:247). -/
structure ViewResult where
  depth : ℚ
  ncc : ℚ
deriving DecidableEq

/-- Modelled from the spec: the `sum_depthmap_NCC` kernel of `kernels.cu.h` is
not under `src/`.  Spec 4.3: "if best NCC exceeds the global acceptance
threshold, add the depth to the running sum and increment the count". -/
def sum_depthmap_NCC (nccthresh : ℚ) (acc : ℚ × ℕ) (v : ViewResult) : ℚ × ℕ :=
  if nccthresh < v.ncc then (acc.1 + v.depth, acc.2 + 1) else acc

/-- The per-pixel (sum, count) accumulator after the view loop of
`RunAlgorithm` (planesweep.cpp:126-127), each `PlaneSweepThread` call ending
in `sum_depthmap_NCC` (planesweep.cpp:253).  The accumulator starts at zero
(spec 3, CostAccumulator: "Reset once per reconstruction"). -/
def accumulateViews (nccthresh : ℚ) (views : List ViewResult) : ℚ × ℕ :=
  views.foldl (sum_depthmap_NCC nccthresh) (0, 0)

/-- Modelled from the spec: the `element_rdivide` kernel of `kernels.cu.h` is
not under `src/`.  Spec 4.3: "final depth = sum/count where count > 0, else
undefined"; the undefined non-finite sentinel is `none` in this embedding. -/
def element_rdivide (s : ℚ) (n : ℕ) : Option ℚ :=
  if n = 0 then none else some (s / (n : ℚ))

/-- Modelled from the spec: the `set_QNAN_value` kernel of `kernels.cu.h` is
not under `src/`.  The spec keeps unresolved pixels "undefined (encoded as a
non-finite sentinel)" in the exported DepthMap, so the kernel preserves the
sentinel (`none`) of undefined pixels. -/
def set_QNAN_value (_value : ℚ) (p : Option ℚ) : Option ℚ := p

/-- The final per-pixel depth of a plane-sweep run (planesweep.cpp:129-131):
`element_rdivide` of the accumulated depth sum by the count, then
`set_QNAN_value` applied with `zfar`. -/
def finalDepth (nccthresh zfar : ℚ) (views : List ViewResult) : Option ℚ :=
  set_QNAN_value zfar
    (element_rdivide (accumulateViews nccthresh views).1
      (accumulateViews nccthresh views).2)

/-- One pixel of `PlaneSweep::ConvertDepthtoUChar` (planesweep.cpp:279): a
non-finite (QNAN) input, `none` here, maps to `UCHAR_MAX = 255`; a defined
depth `d` maps to `UCHAR_MAX * min(max((d - znear)/(zfar - znear), 0), 1)`
truncated to an unsigned char. -/
def ConvertDepthtoUCharPixel (znear zfar : ℚ) (p : Option ℚ) : ℕ :=
  match p with
  | none => 255
  | some d => Nat.floor ((255 : ℚ) * min (max ((d - znear) / (zfar - znear)) 0) 1)

/-- The depth-hypothesis loop of `PlaneSweepThread` (planesweep.cpp:200):
`for (float d = znear; d <= zfar; d += dstep)`, recorded as the list of
values taken by `d`.  `fuel` bounds the recursion; the claim theorem shows
that every bound of at least `numberplanes` yields one list, i.e. the loop
terminates after exactly `numberplanes` iterations. -/
def sweepLoop (zfar dstep : ℚ) : ℕ → ℚ → List ℚ
  | 0, _ => []
  | fuel + 1, d => if d ≤ zfar then d :: sweepLoop zfar dstep fuel (d + dstep) else []

/-- `dstep = (zfar - znear) / (numberplanes - 1)` (planesweep.cpp:169). -/
def dstep (znear zfar : ℚ) (numberplanes : ℕ) : ℚ :=
  (zfar - znear) / ((numberplanes : ℚ) - 1)

/-- The dual step size of iteration `i` in `CudaDenoise` (planesweep.cpp:347):
`currsigma = i == 0 ? 1 + sigma : sigma`. -/
def currsigma (sigma : ℚ) (i : ℕ) : ℚ := if i = 0 then 1 + sigma else sigma

/-- The iteration loop of `CudaDenoise` (planesweep.cpp:346-353): exactly
`niters` passes over the state, each applying the dual kernel `calcP` at step
size `currsigma sigma i` and then the primal kernel `updateU`.  The kernel
bodies live in `kernels.cu.h` and are abstract parameters here. -/
def cudaDenoiseLoop {α : Type} (calcP : ℚ → α → α) (updateU : α → α)
    (sigma : ℚ) (niters : ℕ) (s : α) : α :=
  (List.range niters).foldl (fun st i => updateU (calcP (currsigma sigma i) st)) s

/-- The list of dual step sizes consumed by the `CudaDenoise` loop, obtained
by instrumenting `cudaDenoiseLoop` with a recording state. -/
def cudaDenoiseSigmaTrace (sigma : ℚ) (niters : ℕ) : List ℚ :=
  cudaDenoiseLoop (fun c l => l ++ [c]) (fun l => l) sigma niters []

/-- Preprocessing of one depth pixel in `CudaDenoise` (planesweep.cpp:337-343):
subtract `znear`, then scale by `xscale = 1/(zfar - znear)`. -/
def cudaDenoisePre (znear zfar x : ℚ) : ℚ := (x - znear) * (1 / (zfar - znear))

/-- Postprocessing of one depth pixel in `CudaDenoise`
(planesweep.cpp:355-356): scale by `(zfar - znear)`, then add `znear`. -/
def cudaDenoisePost (znear zfar y : ℚ) : ℚ := y * (zfar - znear) + znear

/-- One pixel of the refined depth map produced by `CudaDenoise`:
preprocessing, `niters` loop passes with abstract kernel bodies, then
postprocessing. -/
def cudaDenoiseDepthPixel (znear zfar : ℚ) (calcP : ℚ → ℚ → ℚ) (updateU : ℚ → ℚ)
    (sigma : ℚ) (niters : ℕ) (x : ℚ) : ℚ :=
  cudaDenoisePost znear zfar
    (cudaDenoiseLoop calcP updateU sigma niters (cudaDenoisePre znear zfar x))

/-- `nimgs` in `RunAlgorithm` (planesweep.cpp:125) and `nimages` in `TGV`
(planesweep.cpp:409): the number of source views processed, computed as
`std::min(std::max((int)numberimages, 1), (int)HostSrc.size())`. -/
def nimgs (numberimages : ℤ) (hostSrcSize : ℕ) : ℤ :=
  min (max numberimages 1) (hostSrcSize : ℤ)

/-- The host-side output buffers and flags of a `PlaneSweep` object that the
entry points read and write.  A buffer holds `some c` for a content token `c`,
or `none` after a `reset` not yet followed by a computed result. -/
structure EngineState where
  depthmap : Option ℕ
  depthmap8u : Option ℕ
  depthmapdenoised : Option ℕ
  depthmap8udenoised : Option ℕ
  depthmapTGV : Option ℕ
  depthmap8uTGV : Option ℕ
  coords : Option ℕ
  depthavailable : Bool
deriving DecidableEq

/-- The environment of one entry-point call: whether `cudaDevInit` reports no
CUDA device, whether the compute stage inside the `try` block (kernel
launches, device memory operations) throws, and the content token the call
would produce on success. -/
structure CallEnv where
  devFail : Bool
  bodyThrows : Bool
  result : ℕ
deriving DecidableEq

/-- The observable outcome of one entry-point call: the returned flag (`none`
for a `void` entry point), the number of `cudaReset` calls performed, and the
post-call state. -/
structure CallOutcome where
  ret : Option Bool
  resets : ℕ
  state' : EngineState
deriving DecidableEq

/-- Control-flow skeleton of `PlaneSweep::RunAlgorithm` (planesweep.cpp:74):
`depthmap.reset(...)` runs before the `try` block on every path; a missing
device resets the context and returns false; a compute-stage exception is
caught, the context reset, and false returned; on success the depth map, its
8-bit conversion and `depthavailable` are written and true is returned. -/
def runAlgorithmModel (e : CallEnv) (s : EngineState) : CallOutcome :=
  let s1 := { s with depthmap := none }
  if e.devFail then ⟨some false, 1, s1⟩
  else if e.bodyThrows then ⟨some false, 1, s1⟩
  else ⟨some true, 0,
    { s1 with depthmap := some e.result, depthmap8u := some e.result,
              depthavailable := true }⟩

/-- Control-flow skeleton of `PlaneSweep::CudaDenoise` (planesweep.cpp:297):
when no depth map is available the function returns false with no context
reset (planesweep.cpp:378); otherwise a missing device resets and returns
false; then `depthmapdenoised` and `depthmap8udenoised` are reset
(planesweep.cpp:321-322) before the compute stage, whose exception is caught
with a context reset and false; on success both outputs are written. -/
def cudaDenoiseModel (e : CallEnv) (s : EngineState) : CallOutcome :=
  if s.depthavailable then
    if e.devFail then ⟨some false, 1, s⟩
    else
      let s1 := { s with depthmapdenoised := none, depthmap8udenoised := none }
      if e.bodyThrows then ⟨some false, 1, s1⟩
      else ⟨some true, 0,
        { s1 with depthmapdenoised := some e.result,
                  depthmap8udenoised := some e.result }⟩
  else ⟨some false, 0, s⟩

/-- Control-flow skeleton of `PlaneSweep::TGV` (planesweep.cpp:381): a missing
device resets the context and returns false; otherwise `depthmapTGV` and
`depthmap8uTGV` are reset (planesweep.cpp:397-398) before the compute stage;
an exception is caught with a context reset and false; on success both
outputs are written and true is returned. -/
def tgvModel (e : CallEnv) (s : EngineState) : CallOutcome :=
  if e.devFail then ⟨some false, 1, s⟩
  else
    let s1 := { s with depthmapTGV := none, depthmap8uTGV := none }
    if e.bodyThrows then ⟨some false, 1, s1⟩
    else ⟨some true, 0,
      { s1 with depthmapTGV := some e.result, depthmap8uTGV := some e.result }⟩

/-- Control-flow skeleton of `PlaneSweep::TGVdenoiseFromSparse`
(planesweep.cpp:596): a missing device resets the context and returns false;
otherwise `depthmapTGV` is reset (planesweep.cpp:613) before the compute
stage; an exception is caught with a context reset and false; on success
`depthmapTGV` and `depthmap8uTGV` are written and true is returned. -/
def tgvSparseModel (e : CallEnv) (s : EngineState) : CallOutcome :=
  if e.devFail then ⟨some false, 1, s⟩
  else
    let s1 := { s with depthmapTGV := none }
    if e.bodyThrows then ⟨some false, 1, s1⟩
    else ⟨some true, 0,
      { s1 with depthmapTGV := some e.result, depthmap8uTGV := some e.result }⟩

/-- Control-flow skeleton of `PlaneSweep::Denoise` (planesweep.cpp:261): with
OpenCV available and a depth map present it writes `depthmap8udenoised` and
returns true; otherwise it returns false.  No path resets the compute
context. -/
def denoiseModel (opencvFound : Bool) (e : CallEnv) (s : EngineState) : CallOutcome :=
  if opencvFound && s.depthavailable then
    ⟨some true, 0, { s with depthmap8udenoised := some e.result }⟩
  else ⟨some false, 0, s⟩

/-- Control-flow skeleton of `PlaneSweep::get3Dcoordinates`
(planesweep.cpp:551): the function returns `void`; an exception from the
compute stage is caught and the context reset; on success the three
coordinate images are written. -/
def get3DcoordinatesModel (e : CallEnv) (s : EngineState) : CallOutcome :=
  if e.bodyThrows then ⟨none, 1, s⟩
  else ⟨none, 0, { s with coords := some e.result }⟩

namespace Matrix3D

lemma mul_assoc3 (A B C : Matrix3D) : (A.mul B).mul C = A.mul (B.mul C) := by
  ext <;> simp [mul] <;> ring

lemma mul_idM (A : Matrix3D) : A.mul idM = A := by
  ext <;> simp [mul, idM]

lemma adj_mul (A : Matrix3D) : A.adj.mul A = idM.scale A.det := by
  ext <;> simp [mul, adj, idM, scale, det] <;> ring

lemma scale_mul_left (c : ℚ) (A B : Matrix3D) :
    (A.scale c).mul B = (A.mul B).scale c := by
  ext <;> simp [mul, scale] <;> ring

lemma idM_mul (A : Matrix3D) : idM.mul A = A := by
  ext <;> simp [mul, idM]

lemma scale_scale (c d : ℚ) (A : Matrix3D) :
    (A.scale c).scale d = A.scale (d * c) := by
  ext <;> simp [scale] <;> ring

lemma scale_one (A : Matrix3D) : A.scale 1 = A := by
  ext <;> simp [scale]

lemma det_trans (A : Matrix3D) : A.trans.det = A.det := by
  simp [trans, det]; ring

lemma det_mul (A B : Matrix3D) : (A.mul B).det = A.det * B.det := by
  simp [mul, det]; ring

lemma det_idM : idM.det = 1 := by
  simp [idM, det]

/-- For an orthonormal matrix the adjugate-over-determinant inverse coincides
with the transpose. -/
lemma inv_eq_trans_of_orth (R : Matrix3D)
    (h1 : R.trans.mul R = idM) (h2 : R.mul R.trans = idM) : R.inv = R.trans := by
  have hdet : R.det * R.det = 1 := by
    have := congrArg det h1
    rwa [det_mul, det_trans, det_idM] at this
  have hdet0 : R.det ≠ 0 := by
    intro h0
    rw [h0, mul_zero] at hdet
    exact one_ne_zero hdet.symm
  have hadj : R.adj = R.trans.scale R.det := by
    calc R.adj = (R.adj).mul idM := (mul_idM _).symm
    _ = (R.adj).mul (R.mul R.trans) := by rw [h2]
    _ = ((R.adj).mul R).mul R.trans := (mul_assoc3 _ _ _).symm
    _ = (idM.scale R.det).mul R.trans := by rw [adj_mul]
    _ = (idM.mul R.trans).scale R.det := scale_mul_left _ _ _
    _ = R.trans.scale R.det := by rw [idM_mul]
  rw [inv, hadj, scale_scale]
  have : (1 / R.det) * R.det = 1 := by field_simp
  rw [this, scale_one]

lemma trans_trans (A : Matrix3D) : A.trans.trans = A := by
  ext <;> simp [trans]

lemma mulVec_mul (A B : Matrix3D) (v : Vector3D) :
    (A.mul B).mulVec v = A.mulVec (B.mulVec v) := by
  ext <;> simp [mul, mulVec] <;> ring

lemma mulVec_sub (A : Matrix3D) (u v : Vector3D) :
    A.mulVec (u.sub v) = (A.mulVec u).sub (A.mulVec v) := by
  ext <;> simp [mulVec, Vector3D.sub] <;> ring

lemma idM_mulVec (v : Vector3D) : idM.mulVec v = v := by
  ext <;> simp [mulVec, idM]

end Matrix3D

lemma Vector3D.neg_sub_neg (u v : Vector3D) : (u.neg).sub (v.neg) = v.sub u := by
  ext <;> simp [Vector3D.neg, Vector3D.sub] <;> ring

lemma Vector3D.sub_eq_sub_of_eq {a b c d : Vector3D} (h1 : a = c) (h2 : b = d) :
    a.sub b = c.sub d := by rw [h1, h2]

/-- Claim C2 counterexample: the two relative-pose derivations of
`RelativeMatrices` disagree on a concrete orthonormal input (identity
reference pose, source rotated 90 degrees about the z axis and translated
along x). -/
theorem C2_pose_derivations_differ :
    RelativeMatrices false Matrix3D.idM ⟨0, 0, 0⟩
        (⟨0, -1, 0, 1, 0, 0, 0, 0, 1⟩ : Matrix3D) ⟨1, 0, 0⟩
      ≠ RelativeMatrices true Matrix3D.idM ⟨0, 0, 0⟩
        (⟨0, -1, 0, 1, 0, 0, 0, 0, 1⟩ : Matrix3D) ⟨1, 0, 0⟩ := by
  intro h
  have hc := congrArg (fun p => p.1.m01) h
  norm_num [RelativeMatrices, Matrix3D.mul, Matrix3D.inv, Matrix3D.adj,
    Matrix3D.det, Matrix3D.scale, Matrix3D.trans, Matrix3D.idM] at hc

/-- Claim C2 (amended): the two derivations of `RelativeMatrices` are the same
relative pose expressed for mutually inverse pose-storage conventions: for
orthonormal rotations, the `alternativemethod` derivation evaluated at the
inverted poses `(R.trans, -(R.trans * t))` agrees exactly with the primary
derivation evaluated at `(R, t)`; on identical inputs the two derivations
differ in general. -/
theorem C2_pose_derivations_agree_on_inverse_convention
    (Rref Rsrc : Matrix3D) (tref tsrc : Vector3D)
    (h1 : Rref.trans.mul Rref = Matrix3D.idM)
    (h2 : Rref.mul Rref.trans = Matrix3D.idM)
    (h3 : Rsrc.mul Rsrc.trans = Matrix3D.idM) :
    RelativeMatrices true Rref.trans ((Rref.trans.mulVec tref).neg)
        Rsrc.trans ((Rsrc.trans.mulVec tsrc).neg)
      = RelativeMatrices false Rref tref Rsrc tsrc := by
  have lhs_eq : RelativeMatrices true Rref.trans ((Rref.trans.mulVec tref).neg)
        Rsrc.trans ((Rsrc.trans.mulVec tsrc).neg)
      = (Rsrc.trans.trans.mul Rref.trans,
         Rsrc.trans.trans.mulVec
           (((Rref.trans.mulVec tref).neg).sub ((Rsrc.trans.mulVec tsrc).neg))) := rfl
  have rhs_eq : RelativeMatrices false Rref tref Rsrc tsrc
      = (Rsrc.mul Rref.inv, tsrc.sub ((Rsrc.mul Rref.inv).mulVec tref)) := rfl
  rw [lhs_eq, rhs_eq, Matrix3D.inv_eq_trans_of_orth Rref h1 h2, Matrix3D.trans_trans,
    Vector3D.neg_sub_neg, Prod.mk.injEq]
  refine ⟨rfl, ?_⟩
  calc Rsrc.mulVec ((Rsrc.trans.mulVec tsrc).sub (Rref.trans.mulVec tref))
      = (Rsrc.mulVec (Rsrc.trans.mulVec tsrc)).sub
          (Rsrc.mulVec (Rref.trans.mulVec tref)) := Matrix3D.mulVec_sub _ _ _
    _ = ((Rsrc.mul Rsrc.trans).mulVec tsrc).sub
          ((Rsrc.mul Rref.trans).mulVec tref) :=
        Vector3D.sub_eq_sub_of_eq (Matrix3D.mulVec_mul _ _ _).symm
          (Matrix3D.mulVec_mul _ _ _).symm
    _ = tsrc.sub ((Rsrc.mul Rref.trans).mulVec tref) := by
        rw [h3, Matrix3D.idM_mulVec]

/-- Witness for C2: the inverse-convention agreement at a concrete orthonormal
input. -/
theorem C2_pose_derivations_agree_witness :
    RelativeMatrices true (Matrix3D.trans Matrix3D.idM)
        (((Matrix3D.trans Matrix3D.idM).mulVec ⟨1, 2, 3⟩).neg)
        (Matrix3D.trans (⟨0, -1, 0, 1, 0, 0, 0, 0, 1⟩ : Matrix3D))
        (((Matrix3D.trans (⟨0, -1, 0, 1, 0, 0, 0, 0, 1⟩ : Matrix3D)).mulVec ⟨4, 5, 6⟩).neg)
      = RelativeMatrices false Matrix3D.idM ⟨1, 2, 3⟩
        (⟨0, -1, 0, 1, 0, 0, 0, 0, 1⟩ : Matrix3D) ⟨4, 5, 6⟩ :=
  C2_pose_derivations_agree_on_inverse_convention Matrix3D.idM
    (⟨0, -1, 0, 1, 0, 0, 0, 0, 1⟩ : Matrix3D) ⟨1, 2, 3⟩ ⟨4, 5, 6⟩
    (by ext <;> norm_num [Matrix3D.mul, Matrix3D.trans, Matrix3D.idM])
    (by ext <;> norm_num [Matrix3D.mul, Matrix3D.trans, Matrix3D.idM])
    (by ext <;> norm_num [Matrix3D.mul, Matrix3D.trans, Matrix3D.idM])

lemma foldl_sum_depthmap_NCC (t : ℚ) :
    ∀ (views : List ViewResult) (acc : ℚ × ℕ),
      views.foldl (sum_depthmap_NCC t) acc
        = (acc.1 + ((views.filter fun v => t < v.ncc).map ViewResult.depth).sum,
           acc.2 + (views.filter fun v => t < v.ncc).length) := by
  intro views
  induction views with
  | nil => intro acc; simp
  | cons v vs ih =>
    intro acc
    rw [List.foldl_cons, ih]
    by_cases h : t < v.ncc
    · have hd : decide (t < v.ncc) = true := by simpa using h
      simp only [sum_depthmap_NCC, if_pos h, List.filter_cons, hd, if_true,
        List.map_cons, List.sum_cons, List.length_cons, Prod.mk.injEq]
      exact ⟨by ring, by omega⟩
    · have hd : decide (t < v.ncc) = false := by simpa using h
      simp only [sum_depthmap_NCC, if_neg h, List.filter_cons, hd,
        Bool.false_eq_true, if_false]

lemma accumulateViews_eq (t : ℚ) (views : List ViewResult) :
    accumulateViews t views
      = (((views.filter fun v => t < v.ncc).map ViewResult.depth).sum,
         (views.filter fun v => t < v.ncc).length) := by
  unfold accumulateViews
  rw [foldl_sum_depthmap_NCC]
  simp

/-- Claim C1: whenever a plane-sweep run assigns a defined depth at a pixel,
the count of source views whose per-view best NCC exceeded `nccthresh` there
is positive, and the assigned depth equals the sum of those views' winning
depths divided by that count. -/
theorem C1_defined_depth_is_thresholded_average
    (nccthresh zfar : ℚ) (views : List ViewResult) (d : ℚ)
    (h : finalDepth nccthresh zfar views = some d) :
    0 < (views.filter fun v => nccthresh < v.ncc).length ∧
      d = ((views.filter fun v => nccthresh < v.ncc).map ViewResult.depth).sum
            / ((views.filter fun v => nccthresh < v.ncc).length : ℚ) := by
  unfold finalDepth set_QNAN_value element_rdivide at h
  rw [accumulateViews_eq] at h
  by_cases hn : (views.filter fun v => nccthresh < v.ncc).length = 0
  · rw [if_pos hn] at h
    exact absurd h (by simp)
  · rw [if_neg hn] at h
    refine ⟨Nat.pos_of_ne_zero hn, ?_⟩
    exact (Option.some.injEq _ _ ▸ h).symm

/-- Witness for C1 on a concrete pixel: two views, one passing the 0.9
threshold with winning depth 2; the run assigns depth 2 = 2/1. -/
theorem C1_defined_depth_witness :
    0 < (([⟨2, 19/20⟩, ⟨3, 1/2⟩] : List ViewResult).filter
          fun v => (9/10 : ℚ) < v.ncc).length ∧
      (2 : ℚ) = ((([⟨2, 19/20⟩, ⟨3, 1/2⟩] : List ViewResult).filter
            fun v => (9/10 : ℚ) < v.ncc).map ViewResult.depth).sum
          / (((([⟨2, 19/20⟩, ⟨3, 1/2⟩] : List ViewResult).filter
            fun v => (9/10 : ℚ) < v.ncc).length : ℚ)) :=
  C1_defined_depth_is_thresholded_average (9/10) 5 [⟨2, 19/20⟩, ⟨3, 1/2⟩] 2
    (by norm_num [finalDepth, set_QNAN_value, element_rdivide, accumulateViews,
      sum_depthmap_NCC])

/-- Claim C3: a pixel at which no source view produced an NCC above the
acceptance threshold holds the non-finite sentinel in the exported depth map,
distinct from every defined depth in `[znear, zfar]`. -/
theorem C3_no_vote_yields_sentinel
    (nccthresh znear zfar : ℚ) (views : List ViewResult)
    (h : ∀ v ∈ views, ¬ nccthresh < v.ncc) :
    finalDepth nccthresh zfar views = none ∧
      ∀ q : ℚ, znear ≤ q → q ≤ zfar → finalDepth nccthresh zfar views ≠ some q := by
  have hfilter : views.filter (fun v => nccthresh < v.ncc) = [] :=
    List.filter_eq_nil_iff.mpr (by intro v hv; simpa using h v hv)
  have hnone : finalDepth nccthresh zfar views = none := by
    unfold finalDepth set_QNAN_value element_rdivide
    rw [accumulateViews_eq, hfilter]
    simp
  refine ⟨hnone, fun q _ _ hq => ?_⟩
  rw [hnone] at hq
  exact Option.noConfusion hq

/-- Witness for C3 on a concrete pixel: one view below the 0.9 threshold; the
exported depth is the sentinel and differs from the in-range depth 3. -/
theorem C3_no_vote_witness :
    finalDepth (9/10) 5 [⟨2, 1/2⟩] = none ∧
      finalDepth (9/10) 5 [⟨2, 1/2⟩] ≠ some 3 := by
  have h := C3_no_vote_yields_sentinel (9/10) 1 5 [⟨2, 1/2⟩]
    (by intro v hv; rw [List.mem_singleton] at hv; subst hv; norm_num)
  exact ⟨h.1, h.2 3 (by norm_num) (by norm_num)⟩

/-- Claim C4: `ConvertDepthtoUChar` maps an undefined (non-finite) pixel to
255; a defined pixel at exactly `znear` to 0 and at exactly `zfar` to 255;
and clamps defined depths outside `[znear, zfar]` to those extremes. -/
theorem C4_ConvertDepthtoUChar_endpoints
    (znear zfar : ℚ) (h : znear < zfar) (v : ℚ) :
    ConvertDepthtoUCharPixel znear zfar none = 255 ∧
    ConvertDepthtoUCharPixel znear zfar (some znear) = 0 ∧
    ConvertDepthtoUCharPixel znear zfar (some zfar) = 255 ∧
    (v ≤ znear → ConvertDepthtoUCharPixel znear zfar (some v) = 0) ∧
    (zfar ≤ v → ConvertDepthtoUCharPixel znear zfar (some v) = 255) := by
  have hz : (0 : ℚ) < zfar - znear := by linarith
  have hne : zfar - znear ≠ 0 := ne_of_gt hz
  refine ⟨rfl, ?_, ?_, ?_, ?_⟩
  · show Nat.floor ((255 : ℚ) * min (max ((znear - znear) / (zfar - znear)) 0) 1) = 0
    rw [sub_self, zero_div]
    norm_num
  · show Nat.floor ((255 : ℚ) * min (max ((zfar - znear) / (zfar - znear)) 0) 1) = 255
    rw [div_self hne]
    norm_num
  · intro hv
    show Nat.floor ((255 : ℚ) * min (max ((v - znear) / (zfar - znear)) 0) 1) = 0
    have hr : (v - znear) / (zfar - znear) ≤ 0 :=
      div_nonpos_iff.mpr (Or.inr ⟨by linarith, le_of_lt hz⟩)
    rw [max_eq_right hr]
    norm_num
  · intro hv
    show Nat.floor ((255 : ℚ) * min (max ((v - znear) / (zfar - znear)) 0) 1) = 255
    have hr : (1 : ℚ) ≤ (v - znear) / (zfar - znear) :=
      (one_le_div hz).mpr (by linarith)
    rw [max_eq_left (by linarith), min_eq_right hr]
    norm_num

/-- Witness for C4 at a concrete range `[1, 5]`: the sentinel, both endpoints,
and one out-of-range depth on each side. -/
theorem C4_ConvertDepthtoUChar_witness :
    ConvertDepthtoUCharPixel 1 5 none = 255 ∧
    ConvertDepthtoUCharPixel 1 5 (some 1) = 0 ∧
    ConvertDepthtoUCharPixel 1 5 (some 5) = 255 ∧
    ConvertDepthtoUCharPixel 1 5 (some 0) = 0 ∧
    ConvertDepthtoUCharPixel 1 5 (some 7) = 255 :=
  ⟨(C4_ConvertDepthtoUChar_endpoints 1 5 (by norm_num) 0).1,
   (C4_ConvertDepthtoUChar_endpoints 1 5 (by norm_num) 0).2.1,
   (C4_ConvertDepthtoUChar_endpoints 1 5 (by norm_num) 0).2.2.1,
   (C4_ConvertDepthtoUChar_endpoints 1 5 (by norm_num) 0).2.2.2.1 (by norm_num),
   (C4_ConvertDepthtoUChar_endpoints 1 5 (by norm_num) 7).2.2.2.2 (by norm_num)⟩

lemma sweepLoop_eq_progression (zf step : ℚ) :
    ∀ (n fuel : ℕ) (s : ℚ), n ≤ fuel →
      (∀ k : ℕ, k < n → s + k * step ≤ zf) →
      zf < s + n * step →
      sweepLoop zf step fuel s = (List.range n).map (fun k : ℕ => s + (k : ℚ) * step) := by
  intro n
  induction n with
  | zero =>
    intro fuel s _ _ hover
    have hs : ¬ s ≤ zf := not_le.mpr (by simpa using hover)
    cases fuel with
    | zero => simp [sweepLoop]
    | succ f => simp [sweepLoop, hs]
  | succ m ih =>
    intro fuel s hfuel hbounds hover
    obtain ⟨f, rfl⟩ : ∃ f, fuel = f + 1 := ⟨fuel - 1, by omega⟩
    have hs : s ≤ zf := by simpa using hbounds 0 (by omega)
    have hb : ∀ k : ℕ, k < m → (s + step) + k * step ≤ zf := by
      intro k hk
      have hb1 := hbounds (k + 1) (by omega)
      push_cast at hb1
      linarith
    have ho : zf < (s + step) + m * step := by
      push_cast at hover
      linarith
    rw [show sweepLoop zf step (f + 1) s
          = if s ≤ zf then s :: sweepLoop zf step f (s + step) else [] from rfl,
      if_pos hs, ih f (s + step) (by omega) hb ho,
      List.range_succ_eq_map, List.map_cons, List.map_map]
    congr 1
    · simp
    · refine List.map_congr_left ?_
      intro k _
      simp only [Function.comp_apply]
      push_cast
      ring

/-- Claim C5: with `numberplanes ≥ 2` and a valid depth range
`znear < zfar`, the depth-hypothesis loop visits exactly
`znear, znear + dstep, ..., zfar`, both endpoints included; every recursion
bound of at least `numberplanes` yields this same list, so the loop stops
after exactly `numberplanes` iterations. -/
theorem C5_depth_loop_inclusive_range
    (znear zfar : ℚ) (numberplanes fuel : ℕ)
    (h2 : 2 ≤ numberplanes) (hz : znear < zfar) (hfuel : numberplanes ≤ fuel) :
    sweepLoop zfar (dstep znear zfar numberplanes) fuel znear
        = (List.range numberplanes).map
            (fun k : ℕ => znear + (k : ℚ) * dstep znear zfar numberplanes) ∧
      znear ∈ sweepLoop zfar (dstep znear zfar numberplanes) fuel znear ∧
      zfar ∈ sweepLoop zfar (dstep znear zfar numberplanes) fuel znear := by
  have hnp2 : (2 : ℚ) ≤ (numberplanes : ℚ) := by exact_mod_cast h2
  have hd0 : (0 : ℚ) < (numberplanes : ℚ) - 1 := by linarith
  have hstep : 0 < dstep znear zfar numberplanes := div_pos (by linarith) hd0
  have hcan : ((numberplanes : ℚ) - 1) * ((zfar - znear) / ((numberplanes : ℚ) - 1))
      = zfar - znear := by
    field_simp
  have hlast : znear + ((numberplanes : ℚ) - 1) * dstep znear zfar numberplanes
      = zfar := by
    rw [dstep, hcan]
    ring
  have hbounds : ∀ k : ℕ, k < numberplanes →
      znear + k * dstep znear zfar numberplanes ≤ zfar := by
    intro k hk
    have hkle : (k : ℚ) ≤ (numberplanes : ℚ) - 1 := by
      have : ((k : ℚ) + 1) ≤ (numberplanes : ℚ) := by exact_mod_cast hk
      linarith
    have := mul_le_mul_of_nonneg_right hkle (le_of_lt hstep)
    linarith
  have hover : zfar < znear + numberplanes * dstep znear zfar numberplanes := by
    have := mul_lt_mul_of_pos_right
      (show (numberplanes : ℚ) - 1 < (numberplanes : ℚ) by linarith) hstep
    linarith
  have key := sweepLoop_eq_progression zfar (dstep znear zfar numberplanes)
    numberplanes fuel znear hfuel hbounds hover
  refine ⟨key, ?_, ?_⟩
  · rw [key]
    exact List.mem_map.mpr ⟨0, List.mem_range.mpr (by omega), by simp⟩
  · rw [key]
    refine List.mem_map.mpr ⟨numberplanes - 1, List.mem_range.mpr (by omega), ?_⟩
    have hc : ((numberplanes - 1 : ℕ) : ℚ) = (numberplanes : ℚ) - 1 := by
      have h1 : 1 ≤ numberplanes := by omega
      push_cast [h1]
      ring
    rw [hc, hlast]

/-- Witness for C5: range `[1, 5]` with 5 planes and recursion bound 6; the
loop visits 1, 2, 3, 4, 5 with both endpoints included. -/
theorem C5_depth_loop_witness :
    sweepLoop 5 (dstep 1 5 5) 6 1
        = (List.range 5).map (fun k : ℕ => 1 + (k : ℚ) * dstep 1 5 5) ∧
      (1 : ℚ) ∈ sweepLoop 5 (dstep 1 5 5) 6 1 ∧
      (5 : ℚ) ∈ sweepLoop 5 (dstep 1 5 5) 6 1 :=
  C5_depth_loop_inclusive_range 1 5 5 6 (by norm_num) (by norm_num) (by norm_num)

lemma foldl_record {γ : Type} (f : γ → ℚ) :
    ∀ (l : List γ) (acc : List ℚ),
      l.foldl (fun st i => st ++ [f i]) acc = acc ++ l.map f := by
  intro l
  induction l with
  | nil => intro acc; simp
  | cons a l ih => intro acc; simp [ih]

lemma foldl_count {γ : Type} :
    ∀ (l : List γ) (c : ℕ), l.foldl (fun st _ => st + 1) c = c + l.length := by
  intro l
  induction l with
  | nil => intro c; simp
  | cons a l ih => intro c; rw [List.foldl_cons, ih, List.length_cons]; omega

lemma cudaDenoiseSigmaTrace_eq (sigma : ℚ) (n : ℕ) :
    cudaDenoiseSigmaTrace sigma n = (List.range n).map (currsigma sigma) := by
  show (List.range n).foldl (fun st i => st ++ [currsigma sigma i]) [] = _
  simpa using foldl_record (currsigma sigma) (List.range n) []

/-- Claim C6: the `CudaDenoise` loop performs exactly `niters` primal-dual
iterations with no convergence test (a counting state is incremented exactly
`niters` times regardless of its value), and the dual update of the first
iteration uses step size `1 + sigma` while every later iteration uses
`sigma`. -/
theorem C6_cudadenoise_iterations (sigma : ℚ) (niters : ℕ) :
    (cudaDenoiseSigmaTrace sigma niters).length = niters ∧
    cudaDenoiseLoop (fun _ n => n) (fun n : ℕ => n + 1) sigma niters 0 = niters ∧
    (0 < niters →
      cudaDenoiseSigmaTrace sigma niters
        = (1 + sigma) :: List.replicate (niters - 1) sigma) := by
  refine ⟨?_, ?_, ?_⟩
  · rw [cudaDenoiseSigmaTrace_eq]
    simp
  · show (List.range niters).foldl (fun st _ => st + 1) 0 = niters
    rw [foldl_count]
    simp
  · intro hpos
    obtain ⟨m, rfl⟩ : ∃ m, niters = m + 1 := ⟨niters - 1, by omega⟩
    rw [cudaDenoiseSigmaTrace_eq, List.range_succ_eq_map, List.map_cons, List.map_map]
    simp only [Nat.add_sub_cancel]
    have hc : ∀ k ∈ List.range m, (currsigma sigma ∘ Nat.succ) k = sigma := by
      intro k _
      simp [currsigma, Function.comp]
    rw [List.map_congr_left hc,
      show currsigma sigma 0 = 1 + sigma by simp [currsigma],
      show ((List.range m).map fun _ : ℕ => sigma) = List.replicate m sigma by
        simp [List.eq_replicate_iff]]

/-- Witness for C6 at `sigma = 1/2`, `niters = 3`: three iterations, dual
step sizes `3/2, 1/2, 1/2`. -/
theorem C6_cudadenoise_witness :
    (cudaDenoiseSigmaTrace (1/2) 3).length = 3 ∧
    cudaDenoiseLoop (fun _ n => n) (fun n : ℕ => n + 1) (1/2) 3 0 = 3 ∧
    cudaDenoiseSigmaTrace (1/2) 3 = (1 + 1/2) :: List.replicate 2 (1/2) :=
  ⟨(C6_cudadenoise_iterations (1/2) 3).1,
   (C6_cudadenoise_iterations (1/2) 3).2.1,
   (C6_cudadenoise_iterations (1/2) 3).2.2 (by norm_num)⟩

/-- Claim C7: with `niters = 0` (and whatever the loop kernels would do) the
`CudaDenoise` pipeline returns the raw depth unchanged: the subtract-`znear`,
scale-by-`1/(zfar-znear)` preprocessing and the scale-by-`(zfar-znear)`,
add-`znear` postprocessing round-trip to the identity. -/
theorem C7_zero_iterations_identity (znear zfar sigma x : ℚ)
    (calcP : ℚ → ℚ → ℚ) (updateU : ℚ → ℚ) (h : znear ≠ zfar) :
    cudaDenoiseDepthPixel znear zfar calcP updateU sigma 0 x = x := by
  have hne : zfar - znear ≠ 0 := sub_ne_zero.mpr (Ne.symm h)
  show cudaDenoisePost znear zfar (cudaDenoisePre znear zfar x) = x
  unfold cudaDenoisePost cudaDenoisePre
  have hco : (x - znear) * (1 / (zfar - znear)) * (zfar - znear) = x - znear := by
    field_simp
  rw [hco]
  ring

/-- Witness for C7: range `[1, 5]`, identity stand-ins for the kernel bodies,
raw depth 7 comes back as 7. -/
theorem C7_zero_iterations_witness :
    cudaDenoiseDepthPixel 1 5 (fun _ s => s) (fun s => s) (1/2) 0 7 = 7 :=
  C7_zero_iterations_identity 1 5 (1/2) 7 (fun _ s => s) (fun s => s) (by norm_num)

/-- Claim C8 counterexample: `Denoise` with no available depth map returns
failure without any compute-context reset, and `get3Dcoordinates` returns no
success/failure flag at all (it is `void`). -/
theorem C8_contract_counterexample :
    (denoiseModel true ⟨false, false, 0⟩ ⟨none, none, none, none, none, none, none, false⟩).ret
        = some false ∧
    (denoiseModel true ⟨false, false, 0⟩ ⟨none, none, none, none, none, none, none, false⟩).resets
        = 0 ∧
    (get3DcoordinatesModel ⟨false, false, 0⟩ ⟨none, none, none, none, none, none, none, false⟩).ret
        = none := by
  decide

/-- Claim C8 (amended): `RunAlgorithm`, `CudaDenoise`, `TGV` and
`TGVdenoiseFromSparse` return a success/failure flag, and every failure
return of `RunAlgorithm`, `TGV` and `TGVdenoiseFromSparse` — and of
`CudaDenoise` when a depth map is available — resets the compute context
before returning; but `CudaDenoise` without a depth map fails with no reset,
`Denoise` returns a flag yet never resets the context, and `get3Dcoordinates`
returns void, resetting only when its body throws. -/
theorem C8_amended_entry_point_contract (e : CallEnv) (s : EngineState) (cv : Bool) :
    ((runAlgorithmModel e s).ret = some false → 0 < (runAlgorithmModel e s).resets) ∧
    ((tgvModel e s).ret = some false → 0 < (tgvModel e s).resets) ∧
    ((tgvSparseModel e s).ret = some false → 0 < (tgvSparseModel e s).resets) ∧
    (s.depthavailable = true →
      (cudaDenoiseModel e s).ret = some false → 0 < (cudaDenoiseModel e s).resets) ∧
    (s.depthavailable = false →
      (cudaDenoiseModel e s).ret = some false ∧ (cudaDenoiseModel e s).resets = 0) ∧
    (denoiseModel cv e s).resets = 0 ∧
    (get3DcoordinatesModel e s).ret = none ∧
    (e.bodyThrows = true → 0 < (get3DcoordinatesModel e s).resets) := by
  obtain ⟨df, bt, r⟩ := e
  obtain ⟨dm, d8, dd, dd8, dt, dt8, co, da⟩ := s
  cases df <;> cases bt <;> cases da <;> cases cv <;>
    simp [runAlgorithmModel, tgvModel, tgvSparseModel, cudaDenoiseModel,
      denoiseModel, get3DcoordinatesModel]

/-- Witness for the amended C8 at concrete calls: a device-check failure of
each stage resets the context, `CudaDenoise` without a depth map fails with
no reset, `Denoise` never resets, and a throwing `get3Dcoordinates` returns
void but resets. -/
theorem C8_amended_contract_witness :
    0 < (runAlgorithmModel ⟨true, false, 0⟩
          ⟨none, none, none, none, none, none, none, true⟩).resets ∧
    0 < (tgvModel ⟨true, false, 0⟩
          ⟨none, none, none, none, none, none, none, true⟩).resets ∧
    0 < (tgvSparseModel ⟨true, false, 0⟩
          ⟨none, none, none, none, none, none, none, true⟩).resets ∧
    0 < (cudaDenoiseModel ⟨true, false, 0⟩
          ⟨none, none, none, none, none, none, none, true⟩).resets ∧
    ((cudaDenoiseModel ⟨true, false, 0⟩
          ⟨none, none, none, none, none, none, none, false⟩).ret = some false ∧
      (cudaDenoiseModel ⟨true, false, 0⟩
          ⟨none, none, none, none, none, none, none, false⟩).resets = 0) ∧
    (denoiseModel true ⟨true, false, 0⟩
          ⟨none, none, none, none, none, none, none, false⟩).resets = 0 ∧
    (get3DcoordinatesModel ⟨true, true, 0⟩
          ⟨none, none, none, none, none, none, none, false⟩).ret = none ∧
    0 < (get3DcoordinatesModel ⟨true, true, 0⟩
          ⟨none, none, none, none, none, none, none, false⟩).resets :=
  ⟨(C8_amended_entry_point_contract ⟨true, false, 0⟩
      ⟨none, none, none, none, none, none, none, true⟩ true).1 (by decide),
   (C8_amended_entry_point_contract ⟨true, false, 0⟩
      ⟨none, none, none, none, none, none, none, true⟩ true).2.1 (by decide),
   (C8_amended_entry_point_contract ⟨true, false, 0⟩
      ⟨none, none, none, none, none, none, none, true⟩ true).2.2.1 (by decide),
   (C8_amended_entry_point_contract ⟨true, false, 0⟩
      ⟨none, none, none, none, none, none, none, true⟩ true).2.2.2.1 (by decide) (by decide),
   (C8_amended_entry_point_contract ⟨true, false, 0⟩
      ⟨none, none, none, none, none, none, none, false⟩ true).2.2.2.2.1 (by decide),
   (C8_amended_entry_point_contract ⟨true, false, 0⟩
      ⟨none, none, none, none, none, none, none, false⟩ true).2.2.2.2.2.1,
   (C8_amended_entry_point_contract ⟨true, true, 0⟩
      ⟨none, none, none, none, none, none, none, false⟩ true).2.2.2.2.2.2.1,
   (C8_amended_entry_point_contract ⟨true, true, 0⟩
      ⟨none, none, none, none, none, none, none, false⟩ true).2.2.2.2.2.2.2 (by decide)⟩

/-- Claim C9 counterexample: a `RunAlgorithm` call that fails at the device
check has already cleared the raw depth map computed by an earlier successful
run, so a failed stage does not leave prior outputs untouched. -/
theorem C9_prior_output_counterexample :
    (runAlgorithmModel ⟨true, false, 0⟩
        ⟨some 7, some 8, some 9, some 10, some 11, some 12, some 13, true⟩).ret
      = some false ∧
    (runAlgorithmModel ⟨true, false, 0⟩
        ⟨some 7, some 8, some 9, some 10, some 11, some 12, some 13, true⟩).state'.depthmap
      ≠ (⟨some 7, some 8, some 9, some 10, some 11, some 12, some 13, true⟩
          : EngineState).depthmap := by
  decide

/-- Claim C9 (amended): a failed stage leaves the outputs of other stages
unchanged and performs no retry, but may clear its own result buffers:
`RunAlgorithm` clears the raw depth map before any failure check, and
`CudaDenoise`, `TGV` and `TGVdenoiseFromSparse` clear their own result
buffers after the device check, so a compute-stage failure leaves exactly
those cleared; a `Denoise` failure changes nothing. -/
theorem C9_amended_failure_state (e : CallEnv) (s : EngineState) (cv : Bool) :
    ((runAlgorithmModel e s).ret = some false →
      (runAlgorithmModel e s).state' = { s with depthmap := none }) ∧
    (e.devFail = true →
      (cudaDenoiseModel e s).state' = s ∧ (tgvModel e s).state' = s ∧
        (tgvSparseModel e s).state' = s) ∧
    ((cudaDenoiseModel e s).ret = some false →
      (cudaDenoiseModel e s).state' = s ∨
        (cudaDenoiseModel e s).state'
          = { s with depthmapdenoised := none, depthmap8udenoised := none }) ∧
    ((tgvModel e s).ret = some false →
      (tgvModel e s).state' = s ∨
        (tgvModel e s).state' = { s with depthmapTGV := none, depthmap8uTGV := none }) ∧
    ((tgvSparseModel e s).ret = some false →
      (tgvSparseModel e s).state' = s ∨
        (tgvSparseModel e s).state' = { s with depthmapTGV := none }) ∧
    ((denoiseModel cv e s).ret = some false → (denoiseModel cv e s).state' = s) := by
  obtain ⟨df, bt, r⟩ := e
  obtain ⟨dm, d8, dd, dd8, dt, dt8, co, da⟩ := s
  cases df <;> cases bt <;> cases da <;> cases cv <;>
    simp [runAlgorithmModel, tgvModel, tgvSparseModel, cudaDenoiseModel, denoiseModel]

/-- Witness for the amended C9 at concrete failing calls on a state holding
prior outputs. -/
theorem C9_amended_failure_witness :
    (runAlgorithmModel ⟨true, false, 0⟩
        ⟨some 7, some 8, some 9, some 10, some 11, some 12, some 13, true⟩).state'
      = ⟨none, some 8, some 9, some 10, some 11, some 12, some 13, true⟩ ∧
    ((cudaDenoiseModel ⟨true, false, 0⟩
        ⟨some 7, some 8, some 9, some 10, some 11, some 12, some 13, true⟩).state'
      = ⟨some 7, some 8, some 9, some 10, some 11, some 12, some 13, true⟩ ∧
     (tgvModel ⟨true, false, 0⟩
        ⟨some 7, some 8, some 9, some 10, some 11, some 12, some 13, true⟩).state'
      = ⟨some 7, some 8, some 9, some 10, some 11, some 12, some 13, true⟩ ∧
     (tgvSparseModel ⟨true, false, 0⟩
        ⟨some 7, some 8, some 9, some 10, some 11, some 12, some 13, true⟩).state'
      = ⟨some 7, some 8, some 9, some 10, some 11, some 12, some 13, true⟩) ∧
    ((tgvModel ⟨false, true, 0⟩
        ⟨some 7, some 8, some 9, some 10, some 11, some 12, some 13, true⟩).state'
      = ⟨some 7, some 8, some 9, some 10, some 11, some 12, some 13, true⟩ ∨
     (tgvModel ⟨false, true, 0⟩
        ⟨some 7, some 8, some 9, some 10, some 11, some 12, some 13, true⟩).state'
      = ⟨some 7, some 8, some 9, some 10, none, none, some 13, true⟩) ∧
    (denoiseModel false ⟨false, false, 0⟩
        ⟨some 7, some 8, some 9, some 10, some 11, some 12, some 13, true⟩).state'
      = ⟨some 7, some 8, some 9, some 10, some 11, some 12, some 13, true⟩ :=
  ⟨(C9_amended_failure_state ⟨true, false, 0⟩
      ⟨some 7, some 8, some 9, some 10, some 11, some 12, some 13, true⟩ false).1
      (by decide),
   (C9_amended_failure_state ⟨true, false, 0⟩
      ⟨some 7, some 8, some 9, some 10, some 11, some 12, some 13, true⟩ false).2.1
      (by decide),
   (C9_amended_failure_state ⟨false, true, 0⟩
      ⟨some 7, some 8, some 9, some 10, some 11, some 12, some 13, true⟩ false).2.2.2.1
      (by decide),
   (C9_amended_failure_state ⟨false, false, 0⟩
      ⟨some 7, some 8, some 9, some 10, some 11, some 12, some 13, true⟩ false).2.2.2.2.2
      (by decide)⟩

/-- Claim C10 counterexample: with `numberimages = 5` but no provided source
views the engine processes `min(max(5, 1), 0) = 0` views, not at least one. -/
theorem C10_view_count_counterexample :
    nimgs 5 0 = 0 ∧ ¬ (1 : ℤ) ≤ nimgs 5 0 := by
  decide

/-- Claim C10 (amended): the number of views processed by `RunAlgorithm` and
`TGV` equals `min(max(numberimages, 1), HostSrc.size())`: never more than the
provided source views, at least one whenever at least one source view is
provided (in particular when `numberimages ≤ 0`), and silently capped at the
provided count when `numberimages` exceeds it. -/
theorem C10_amended_view_count (numberimages : ℤ) (hostSrcSize : ℕ) :
    nimgs numberimages hostSrcSize ≤ (hostSrcSize : ℤ) ∧
    (1 ≤ hostSrcSize → 1 ≤ nimgs numberimages hostSrcSize) ∧
    (numberimages ≤ 0 → nimgs numberimages hostSrcSize = min 1 (hostSrcSize : ℤ)) ∧
    (1 ≤ numberimages → (hostSrcSize : ℤ) ≤ numberimages →
      nimgs numberimages hostSrcSize = (hostSrcSize : ℤ)) := by
  unfold nimgs
  omega

/-- Witness for the amended C10: `numberimages = 0` with three provided views
uses one view; `numberimages = 7` with three provided views uses three. -/
theorem C10_amended_view_count_witness :
    nimgs 0 3 ≤ ((3 : ℕ) : ℤ) ∧ 1 ≤ nimgs 0 3 ∧
      nimgs 0 3 = min 1 ((3 : ℕ) : ℤ) ∧ nimgs 7 3 = ((3 : ℕ) : ℤ) :=
  ⟨(C10_amended_view_count 0 3).1,
   (C10_amended_view_count 0 3).2.1 (by norm_num),
   (C10_amended_view_count 0 3).2.2.1 (by norm_num),
   (C10_amended_view_count 7 3).2.2.2 (by norm_num) (by norm_num)⟩

end PS
